import Mathlib

/-
  Verification development for the autodb-agent document-intake pipeline.

  The embedded code comes from:
    - src/app/agents/document_processor.py
        text_parsing_tool, image_analysis_tool,
        DocumentProcessingAgent.process_document_metadata
    - src/app/routers/documents.py
        upload_document (the decision/results split, lines 56-84)

  Modelling conventions:
    - Python dicts are association lists (List (String × JVal)) with
      Python insertion/update semantics (dinsert / dupdate below).
    - Effects (the agent run, the HTTP fetch, PDF/DOCX parsing, the
      summarizer / vision model call) are explicit inputs: a value of an
      Except type, or an oracle function from the prompt string, so one
      pipeline invocation is a pure function of those inputs.
    - Raised Python exceptions are the .error branch of Except; a function
      whose Python body is wrapped in try/except is total here, with the
      except-branch dictionary as its value on the .error inputs.
    - json.loads is modelled on the flat-object fragment of JSON (objects
      whose values are strings, integers, booleans or null, no escape
      sequences) which is the shape the agent prompt requests; documents
      outside that fragment count as parse failures.
-/

/-- Whitespace test matching the characters Python str.strip and str.split
strip for the ASCII inputs handled by this pipeline. -/
def wsChar (c : Char) : Bool :=
  c == ' ' || c == '\t' || c == '\n' || c == '\r' || c == '\x0b' || c == '\x0c'

/-- Python str.strip(): remove leading and trailing whitespace. -/
def pyStrip (s : String) : String :=
  String.mk (((s.toList.dropWhile wsChar).reverse.dropWhile wsChar).reverse)

/-- Python slice s[:n] for a nonnegative bound. -/
def pyTake (s : String) (n : Nat) : String :=
  String.mk (s.toList.take n)

/-- Python slice s[n:] for a nonnegative bound. -/
def pyDrop (s : String) (n : Nat) : String :=
  String.mk (s.toList.drop n)

/-- Python slice s[a:b] for nonnegative bounds. -/
def pySlice (s : String) (a b : Nat) : String :=
  String.mk ((s.toList.drop a).take (b - a))

/-- Helper for pyWordCount: count maximal runs of non-whitespace characters;
the flag records whether the previous character was inside a word. -/
def countWordsAux : List Char → Bool → Nat
  | [], _ => 0
  | c :: cs, inw =>
    if wsChar c then countWordsAux cs false
    else (if inw then 0 else 1) + countWordsAux cs true

/-- Python len(s.split()): number of whitespace-separated words. -/
def pyWordCount (s : String) : Nat :=
  countWordsAux s.toList false

/-- Does the list start with the given pattern. -/
def listStarts : List Char → List Char → Bool
  | [], _ => true
  | _ :: _, [] => false
  | p :: ps, c :: cs => p == c && listStarts ps cs

/-- Does the list contain the given pattern as a contiguous run. -/
def listHas (pat : List Char) : List Char → Bool
  | [] => listStarts pat []
  | c :: cs => listStarts pat (c :: cs) || listHas pat (cs)

/-- Python membership test needle in hay on strings. -/
def pyIn (needle hay : String) : Bool :=
  listHas needle.toList hay.toList

/-- Replace every non-overlapping occurrence of the nonempty pattern
p :: ps by rep, scanning left to right (Python str.replace); the fuel
only bounds the recursion and never runs out when it starts at the
length of the scanned list. -/
def replListNE (p : Char) (ps rep : List Char) : Nat → List Char → List Char
  | _, [] => []
  | 0, cs => cs
  | fuel + 1, c :: cs =>
    if listStarts (p :: ps) (c :: cs) then
      rep ++ replListNE p ps rep fuel (cs.drop ps.length)
    else
      c :: replListNE p ps rep fuel cs

/-- Python s.replace(pat, rep) for a nonempty pattern (the pipeline only
replaces the nonempty markers; an empty pattern is left as the identity). -/
def pyReplace (s pat rep : String) : String :=
  match pat.toList with
  | [] => s
  | p :: ps => String.mk (replListNE p ps rep.toList s.toList.length s.toList)

/-- Python s.find(c): index of the first occurrence, none when absent. -/
def strFind (s : String) (c : Char) : Option Nat :=
  s.toList.findIdx? (· == c)

/-- Python s.rfind(c): index of the last occurrence, none when absent. -/
def strRFind (s : String) (c : Char) : Option Nat :=
  (s.toList.reverse.findIdx? (· == c)).map (fun i => s.toList.length - 1 - i)

/-- Opening brace character, written by code point. -/
def lbrace : Char := Char.ofNat 123

/-- Closing brace character, written by code point. -/
def rbrace : Char := Char.ofNat 125

/-- Scalar JSON values: the value shapes appearing in the pipeline
dictionaries (decision fields, tool-result fields). -/
inductive JVal where
  | jbool (b : Bool)
  | jstr (s : String)
  | jnum (n : Int)
  | jnull
deriving DecidableEq

/-- Python dict modelled as an association list in insertion order with
no duplicate keys (all operations below preserve that). -/
abbrev Dict := List (String × JVal)

/-- Python key in d. -/
def dcontains (d : Dict) (k : String) : Bool :=
  d.any (fun kv => kv.1 == k)

/-- Python d.get(k) / d[k] lookup. -/
def dlookup (d : Dict) (k : String) : Option JVal :=
  match d with
  | [] => none
  | kv :: t => if kv.1 == k then some kv.2 else dlookup t k

/-- Python d[k] = v: overwrite in place when the key exists, else append. -/
def dinsert (d : Dict) (k : String) (v : JVal) : Dict :=
  match d with
  | [] => [(k, v)]
  | kv :: t => if kv.1 == k then (k, v) :: t else kv :: dinsert t k v

/-- Python d1.update(d2): insert every pair of d2 into d1 in order. -/
def dupdate (d1 d2 : Dict) : Dict :=
  d2.foldl (fun acc kv => dinsert acc kv.1 kv.2) d1

/-- Python dict comprehension keeping only the keys in the allowlist. -/
def dfilterKeys (allow : List String) : Dict → Dict
  | [] => []
  | kv :: t => if allow.contains kv.1 then kv :: dfilterKeys allow t else dfilterKeys allow t

/-- Skip the JSON whitespace characters (the four accepted by json.loads). -/
def jskipWs (cs : List Char) : List Char :=
  cs.dropWhile (fun c => c == ' ' || c == '\t' || c == '\n' || c == '\r')

/-- Parse a JSON string body after the opening quote; no escape sequences
and no control characters (the flat fragment). -/
def jparseString : List Char → Option (String × List Char)
  | [] => none
  | c :: t =>
    if c == '\"' then some ("", t)
    else if c == '\\' || decide (c.toNat < 32) then none
    else
      match jparseString t with
      | some (s, r) => some (String.mk (c :: s.toList), r)
      | none => none

/-- Parse a nonempty run of decimal digits into a Nat. -/
def jparseDigits (cs : List Char) : Option (Nat × List Char) :=
  let ds := cs.takeWhile Char.isDigit
  if ds.isEmpty then none
  else some (ds.foldl (fun a c => a * 10 + (c.toNat - 48)) 0, cs.dropWhile Char.isDigit)

/-- Reject a numeric continuation that would make the literal a float. -/
def jnumOkNext : List Char → Bool
  | [] => true
  | c :: _ => !(c == '.' || c == 'e' || c == 'E')

/-- Parse one scalar JSON value. -/
def jparseScalar : List Char → Option (JVal × List Char)
  | '\"' :: t => (jparseString t).map (fun p => (JVal.jstr p.1, p.2))
  | 't' :: 'r' :: 'u' :: 'e' :: t => some (JVal.jbool true, t)
  | 'f' :: 'a' :: 'l' :: 's' :: 'e' :: t => some (JVal.jbool false, t)
  | 'n' :: 'u' :: 'l' :: 'l' :: t => some (JVal.jnull, t)
  | '-' :: t =>
    match jparseDigits t with
    | some (n, r) => if jnumOkNext r then some (JVal.jnum (-(n : Int)), r) else none
    | none => none
  | cs =>
    match jparseDigits cs with
    | some (n, r) => if jnumOkNext r then some (JVal.jnum (n : Int), r) else none
    | none => none

/-- Parse the members of a JSON object after the opening brace, folding
them into a dict with last-key-wins semantics like json.loads. -/
def jparseMembers : Nat → List Char → Dict → Option (Dict × List Char)
  | 0, _, _ => none
  | fuel + 1, cs, acc =>
    match jskipWs cs with
    | '\"' :: t =>
      match jparseString t with
      | none => none
      | some (k, r1) =>
        match jskipWs r1 with
        | ':' :: r2 =>
          match jparseScalar (jskipWs r2) with
          | none => none
          | some (v, r3) =>
            let acc2 := dinsert acc k v
            match jskipWs r3 with
            | ',' :: r4 => jparseMembers fuel r4 acc2
            | c :: r4 => if c == rbrace then some (acc2, r4) else none
            | [] => none
        | _ => none
    | _ => none

/-- Model of json.loads restricted to a flat object: returns the dict when
the whole input is one object of scalar members, none otherwise (a raised
json.JSONDecodeError is the none branch). -/
def jsonLoadsObj (s : String) : Option Dict :=
  match jskipWs s.toList with
  | c :: t =>
    if c == lbrace then
      match jskipWs t with
      | c2 :: r =>
        if c2 == rbrace then
          if (jskipWs r).isEmpty then some [] else none
        else
          match jparseMembers (s.length + 1) t [] with
          | some (d, rest) => if (jskipWs rest).isEmpty then some d else none
          | none => none
      | [] => none
    else none
  | [] => none

/-- Key name of the decision field should_process. -/
def kShouldProcess : String := "should_process"

/-- Key name of the decision field workflow_type. -/
def kWorkflowType : String := "workflow_type"

/-- Key name of the decision field reason. -/
def kReason : String := "reason"

/-- Key name of the result field success. -/
def kSuccess : String := "success"

/-- Key name of the result field extracted_text. -/
def kExtractedText : String := "extracted_text"

/-- Key name of the result field image_description. -/
def kImageDescription : String := "image_description"

/-- Key name of the result field word_count. -/
def kWordCount : String := "word_count"

/-- Key name of the result field processing_method. -/
def kProcessingMethod : String := "processing_method"

/-- Key name of the result field error. -/
def kError : String := "error"

/-- Key name of the tool field content_type. -/
def kContentType : String := "content_type"

/-- Key name of the image-tool field detected_objects. -/
def kDetectedObjects : String := "detected_objects"

/-- Key name of the image-tool field scene_type. -/
def kSceneType : String := "scene_type"

/-- Workflow value skip_processing. -/
def wtSkip : String := "skip_processing"

/-- Processing-method value of the text tool. -/
def mTextSum : String := "ai_text_summarization"

/-- Processing-method value of the image tool. -/
def mVision : String := "ai_vision_analysis"

/-- Tool name of the text tool as recorded in an execution. -/
def nameTextTool : String := "text_parsing_tool"

/-- Tool name of the image tool as recorded in an execution. -/
def nameImageTool : String := "image_analysis_tool"

/-- Content type handled as plain text. -/
def ctPlain : String := "text/plain"

/-- Content type handled as PDF. -/
def ctPdf : String := "application/pdf"

/-- Content type handled as CSV plain text. -/
def ctCsv : String := "text/csv"

/-- Substring selecting the DOCX branch. -/
def wpNeedle : String := "wordprocessingml"

/-- Markdown code-fence marker removed from model responses. -/
def fenceMark : String := "```"

/-- Markdown json code-fence marker removed from agent responses. -/
def fenceJsonMark : String := "```json"

/-- Markdown bold marker removed from model responses. -/
def boldMark : String := "**"

/-- Placeholder text returned for an unhandled text-family content type. -/
def msgUnsupported : String := "Unsupported text format"

/-- Placeholder content used when the stripped raw text is empty. -/
def msgNoMeaningful : String := "No meaningful text content found"

/-- Constant detected_objects value of the image tool. -/
def msgAnalysisCompleted : String := "Analysis completed"

/-- Constant scene_type value of the image tool. -/
def msgImageAnalyzed : String := "Image analyzed"

/-- Reason prefix of the agent-exception fallback decision. -/
def msgAgentFailed : String := "Agent processing failed: "

/-- Reason prefix of the no-JSON fallback decision. -/
def msgNoJsonFound : String := "No JSON found in response: "

/-- Reason prefix of the bad-JSON fallback decision. -/
def msgCouldNotParse : String := "Could not parse agent response: "

/-- Newline used to join PDF page texts and DOCX paragraph texts. -/
def nlSep : String := "\n"

/-- Error dictionary built by the except-branch of text_parsing_tool. -/
def textErrorDict (e content_type : String) : Dict :=
  [(kSuccess, JVal.jbool false),
   (kError, JVal.jstr e),
   (kContentType, JVal.jstr content_type),
   (kProcessingMethod, JVal.jstr mTextSum)]

/-- Success dictionary built by text_parsing_tool: the extracted text is
sliced to 1000 characters when stored. -/
def textSuccessDict (extracted : String) (wc : Nat) (content_type : String) : Dict :=
  [(kSuccess, JVal.jbool true),
   (kExtractedText, JVal.jstr (pyTake extracted 1000)),
   (kWordCount, JVal.jnum (wc : Int)),
   (kContentType, JVal.jstr content_type),
   (kProcessingMethod, JVal.jstr mTextSum)]

/-- Summary prompt template of text_parsing_tool with the 4000-character
slice of the raw text substituted in (the trailing source comment is part
of the Python f-string literal). -/
def summaryPromptOf (truncated : String) : String :=
  String.append
    ("\n            Analyze and summarize the following text content. Focus on:\n            1. Main topic/subject\n            2. Key points or important information  \n            3. Document purpose or type\n            4. Most relevant details\n            \n            Keep the summary concise but informative (2-3 sentences max).\n            \n            Text content:\n            ")
    (String.append truncated ("  # Limit to first 4000 chars to avoid token limits\n            "))

/-- Markdown cleanup applied to a model response by both tools:
strip, remove code fences, remove bold markers, strip again. -/
def cleanModelResponse (s : String) : String :=
  pyStrip (pyReplace (pyReplace (pyStrip s) fenceMark ("")) boldMark (""))

/-- Environment of one text_parsing_tool invocation: the outcome of the
HTTP fetch, the fetched body, the page texts a PdfReader yields (or the
exception it raises), the paragraph texts python-docx yields (or the
exception it raises), and the summarizer model as an oracle from the
prompt to its response content (or the exception the call raises). -/
structure TextToolEnv where
  fetch : Except String Unit
  body_text : String
  pdf_pages : Except String (List String)
  docx_paragraphs : Except String (List String)
  summarize : String → Except String String

/-- Raw text extraction branch of text_parsing_tool (lines 78-104):
select by content type, joining PDF pages and DOCX paragraphs with
newlines, with the placeholder for unhandled text formats. -/
def raw_text_of (content_type : String) (env : TextToolEnv) : Except String String :=
  if content_type == ctPlain then Except.ok env.body_text
  else if content_type == ctPdf then
    (env.pdf_pages).map (fun ps => nlSep.intercalate ps)
  else if content_type == ctCsv then Except.ok env.body_text
  else if pyIn wpNeedle content_type then
    (env.docx_paragraphs).map (fun ps => nlSep.intercalate ps)
  else Except.ok msgUnsupported

/-- Post-processing of text_parsing_tool after raw text extraction
(lines 106-155): strip, count words, short-circuit below six words, else
summarize the first 4000 characters and clean the response. Returns the
result dictionary and the list of prompts sent to the summarizer. -/
def text_post_process (content_type raw0 : String)
    (summarize : String → Except String String) : Dict × List String :=
  let raw := pyStrip raw0
  let wc := if raw ≠ "" then pyWordCount raw else 0
  if wc > 5 then
    let prompt := summaryPromptOf (pyTake raw 4000)
    match summarize prompt with
    | Except.error e => (textErrorDict e content_type, [prompt])
    | Except.ok s => (textSuccessDict (cleanModelResponse s) wc content_type, [prompt])
  else
    let et := if raw ≠ "" then pyTake raw 1000 else msgNoMeaningful
    (textSuccessDict et wc content_type, [])

/-- Model of text_parsing_tool (document_processor.py lines 58-166): fetch
the file, extract raw text per content type, post-process; any raised
exception yields the error dictionary of the except branch. -/
def text_parsing_tool (file_url content_type : String) (env : TextToolEnv) :
    Dict × List String :=
  match env.fetch with
  | Except.error e => (textErrorDict e content_type, [])
  | Except.ok _ =>
    match raw_text_of content_type env with
    | Except.error e => (textErrorDict e content_type, [])
    | Except.ok raw0 => text_post_process content_type raw0 env.summarize

/-- Environment of one image_analysis_tool invocation: the vision model as
an oracle from the prompt to its response content or raised exception. -/
structure ImageToolEnv where
  vision : String → Except String String

/-- Vision prompt template of image_analysis_tool with the file URL
substituted in. -/
def visionPromptOf (file_url : String) : String :=
  String.append
    ("\n        Analyze this image from URL: ")
    (String.append file_url
      ("\n        \n        Provide:\n        1. Main objects/subjects in the image\n        2. Scene description\n        3. Text content (if any)\n        4. Overall theme/category\n        5. Key visual elements\n        \n        Keep response concise and structured.\n        "))

/-- Error dictionary built by the except-branch of image_analysis_tool. -/
def imageErrorDict (e content_type : String) : Dict :=
  [(kSuccess, JVal.jbool false),
   (kError, JVal.jstr e),
   (kContentType, JVal.jstr content_type),
   (kProcessingMethod, JVal.jstr mVision)]

/-- Model of image_analysis_tool (document_processor.py lines 169-236):
run the vision sub-agent on the prompt, clean markdown from the response;
a raised exception yields the error dictionary. Returns the result
dictionary and the prompts sent to the vision model. -/
def image_analysis_tool (file_url content_type : String) (env : ImageToolEnv) :
    Dict × List String :=
  let prompt := visionPromptOf file_url
  match env.vision prompt with
  | Except.error e => (imageErrorDict e content_type, [prompt])
  | Except.ok s =>
    ([(kSuccess, JVal.jbool true),
      (kImageDescription, JVal.jstr (cleanModelResponse s)),
      (kContentType, JVal.jstr content_type),
      (kProcessingMethod, JVal.jstr mVision),
      (kDetectedObjects, JVal.jstr msgAnalysisCompleted),
      (kSceneType, JVal.jstr msgImageAnalyzed)], [prompt])

/-- One recorded tool execution on the agno run response: the tool name
and the outcome of recovering its serialized result with eval — some dict
when the evaluation succeeds, none when it raises. -/
structure ToolExecution where
  tool_name : String
  result : Option Dict
deriving DecidableEq

/-- Agno RunResponse as process_document_metadata reads it: the content
text and the recorded tool executions. -/
structure RunResponse where
  content : String
  tools : List ToolExecution
deriving DecidableEq

/-- Shape shared by the three fallback decisions of
process_document_metadata: a skip decision with the given reason text. -/
def skipFallback (r : String) : Dict :=
  [(kShouldProcess, JVal.jbool false),
   (kWorkflowType, JVal.jstr wtSkip),
   (kReason, JVal.jstr r)]

/-- Fallback decision when self.agent.run raises. -/
def fallbackAgentFailed (e : String) : Dict :=
  skipFallback (String.append msgAgentFailed e)

/-- Fallback decision when the cleaned response text holds no opening
brace. -/
def fallbackNoJson (rt : String) : Dict :=
  skipFallback (String.append msgNoJsonFound (pyTake rt 200))

/-- Fallback decision when json.loads raises on the brace-delimited
slice. -/
def fallbackBadJson (js : String) : Dict :=
  skipFallback (String.append msgCouldNotParse (pyTake js 200))

/-- Cleanup of the agent response content before brace search (line 284):
drop json code fences and fences, then strip. -/
def cleanedResponseText (content : String) : String :=
  pyStrip (pyReplace (pyReplace content fenceJsonMark ("")) fenceMark (""))

/-- Python end_idx = response_text.rfind(rbrace) + 1, which is 0 when the
brace is absent since rfind returns -1. -/
def braceEndIdx (rt : String) : Nat :=
  match strRFind rt rbrace with
  | some j => j + 1
  | none => 0

/-- Python json_str = response_text[start_idx:end_idx] of line 290. -/
def braceSlice (rt : String) (si : Nat) : String :=
  pySlice rt si (braceEndIdx rt)

/-- Decision recovery of process_document_metadata (lines 282-306): find
the brace-delimited slice of the cleaned response and parse it, falling
back to a skip decision when no JSON is found or parsing fails. -/
def decision_from_response (content : String) : Dict :=
  match strFind (cleanedResponseText content) lbrace with
  | none => fallbackNoJson (cleanedResponseText content)
  | some si =>
    match jsonLoadsObj (braceSlice (cleanedResponseText content) si) with
    | some d => d
    | none => fallbackBadJson (braceSlice (cleanedResponseText content) si)

/-- True exactly when decision recovery takes a fallback branch: the
cleaned response has no opening brace, or json.loads fails on the
slice. -/
def decision_failed (content : String) : Bool :=
  match strFind (cleanedResponseText content) lbrace with
  | none => true
  | some si => (jsonLoadsObj (braceSlice (cleanedResponseText content) si)).isNone

/-- Is a recorded execution one of the two recognized tools. -/
def isRecognizedTool (t : ToolExecution) : Bool :=
  t.tool_name == nameTextTool || t.tool_name == nameImageTool

/-- Tool-result accumulation of process_document_metadata (lines 308-324):
fold the recovered dictionaries of recognized tool executions into one
dict, silently skipping executions whose recovery raised. -/
def tool_results_of (ts : List ToolExecution) : Dict :=
  ts.foldl
    (fun acc t =>
      if isRecognizedTool t then
        match t.result with
        | some d => dupdate acc d
        | none => acc
      else acc) []

/-- Model of DocumentProcessingAgent.process_document_metadata (lines
249-342). The metadata arguments only feed the prompt shown to the agent;
the run argument is the outcome of self.agent.run — a raised exception or
a RunResponse. The body is total: every failure is folded into the
returned dictionary. -/
def process_document_metadata (content_type : String) (file_size : Int)
    (filename file_url : String) (run : Except String RunResponse) : Dict :=
  match run with
  | Except.error e => fallbackAgentFailed e
  | Except.ok resp =>
    let final_result := decision_from_response resp.content
    let tool_results := tool_results_of resp.tools
    if tool_results.isEmpty then final_result
    else dupdate final_result tool_results

/-- Trigger keys of the upload split (documents.py line 63). -/
def triggerKeys : List String :=
  [kExtractedText, kImageDescription, kSuccess, kProcessingMethod]

/-- Allowlist of the processing_results fragment (documents.py line 67). -/
def resultKeys : List String :=
  [kSuccess, kExtractedText, kImageDescription, kWordCount, kProcessingMethod, kError]

/-- Allowlist of the ai_workflow fragment (documents.py line 72). -/
def decisionKeys : List String :=
  [kShouldProcess, kWorkflowType, kReason]

/-- Decision/results split of upload_document (documents.py lines 56-73):
when any trigger key occurs in the merged workflow dict, filter it into
the two allowlisted fragments; otherwise persist it unchanged with an
absent processing_results. -/
def upload_split (ai_workflow : Dict) : Dict × Option Dict :=
  if triggerKeys.any (fun k => dcontains ai_workflow k) then
    (dfilterKeys decisionKeys ai_workflow, some (dfilterKeys resultKeys ai_workflow))
  else (ai_workflow, none)

/-- Persisted fragments of one upload: the split applied to the outcome of
process_document_metadata. -/
def upload_document_fragments (content_type : String) (file_size : Int)
    (filename file_url : String) (run : Except String RunResponse) :
    Dict × Option Dict :=
  upload_split (process_document_metadata content_type file_size filename file_url run)


/-- Membership in a dict after a Python-style insert. -/
theorem dcontains_dinsert (d : Dict) (k' : String) (v : JVal) (k : String) :
    dcontains (dinsert d k' v) k = (k' == k || dcontains d k) := by
  induction d with
  | nil => simp [dinsert, dcontains]
  | cons kv t ih =>
    by_cases h : kv.1 = k'
    · simp [dinsert, h, dcontains, List.any_cons]
    · have hb : (kv.1 == k') = false := by simpa using h
      simp only [dinsert, hb, Bool.false_eq_true, if_false]
      simp only [dcontains, List.any_cons] at ih ⊢
      rw [ih]
      cases hkk : (k' == k) <;> cases hkv : (kv.1 == k) <;> simp

/-- Lookup is unchanged by inserting a different key. -/
theorem dlookup_dinsert_ne (d : Dict) (k' : String) (v : JVal) (k : String)
    (h : (k' == k) = false) :
    dlookup (dinsert d k' v) k = dlookup d k := by
  induction d with
  | nil => simp [dinsert, dlookup, h]
  | cons kv t ih =>
    by_cases hkv : kv.1 = k'
    · simp [dinsert, hkv, dlookup, h]
    · have hb : (kv.1 == k') = false := by simpa using hkv
      simp only [dinsert, hb, Bool.false_eq_true, if_false]
      by_cases hk : kv.1 = k
      · simp [dlookup, hk]
      · have hkb : (kv.1 == k) = false := by simpa using hk
        simp [dlookup, hkb, ih]

/-- Membership in a dict after a Python-style update. -/
theorem dcontains_dupdate (d2 d1 : Dict) (k : String) :
    dcontains (dupdate d1 d2) k = (dcontains d1 k || dcontains d2 k) := by
  induction d2 generalizing d1 with
  | nil => simp [dupdate, dcontains]
  | cons kv t ih =>
    show dcontains (dupdate (dinsert d1 kv.1 kv.2) t) k = _
    rw [ih, dcontains_dinsert]
    simp only [dcontains, List.any_cons]
    cases h1 : (kv.1 == k) <;> cases h2 : List.any d1 (fun kv => kv.1 == k) <;> simp

/-- Lookup is unchanged by updating with a dict lacking the key. -/
theorem dlookup_dupdate_not_contains (d2 d1 : Dict) (k : String)
    (h : dcontains d2 k = false) :
    dlookup (dupdate d1 d2) k = dlookup d1 k := by
  induction d2 generalizing d1 with
  | nil => rfl
  | cons kv t ih =>
    simp only [dcontains, List.any_cons, Bool.or_eq_false_iff] at h
    show dlookup (dupdate (dinsert d1 kv.1 kv.2) t) k = _
    rw [ih _ (by simpa [dcontains] using h.2), dlookup_dinsert_ne _ _ _ _ h.1]

/-- Keys outside the allowlist never survive the filter. -/
theorem dcontains_dfilterKeys (allow : List String) (d : Dict) (k : String)
    (h : allow.contains k = false) :
    dcontains (dfilterKeys allow d) k = false := by
  induction d with
  | nil => rfl
  | cons kv t ih =>
    unfold dfilterKeys
    by_cases hk : allow.contains kv.1 = true
    · have hkk : (kv.1 == k) = false := by
        by_cases he : kv.1 = k
        · rw [he] at hk; rw [h] at hk; exact absurd hk (by simp)
        · simpa using he
      simp only [hk, if_true, dcontains, List.any_cons, hkk, Bool.false_or]
      exact ih
    · simp only [eq_false_of_ne_true hk, Bool.false_eq_true, if_false]
      exact ih

/-- Step function of the tool-result fold, named for the lemmas below. -/
def toolStep (acc : Dict) (t : ToolExecution) : Dict :=
  if isRecognizedTool t then
    match t.result with
    | some d => dupdate acc d
    | none => acc
  else acc

/-- The tool-result fold is the fold of toolStep. -/
theorem tool_results_of_eq_foldl (ts : List ToolExecution) :
    tool_results_of ts = ts.foldl toolStep [] := rfl

/-- Membership in the folded tool results, relative to the accumulator. -/
theorem dcontains_foldl_toolStep (ts : List ToolExecution) (acc : Dict) (k : String) :
    dcontains (ts.foldl toolStep acc) k =
      (dcontains acc k ||
        ts.any (fun t =>
          isRecognizedTool t &&
            match t.result with
            | some d => dcontains d k
            | none => false)) := by
  induction ts generalizing acc with
  | nil => simp
  | cons t ts ih =>
    simp only [List.foldl_cons, List.any_cons, ih]
    have hstep : dcontains (toolStep acc t) k =
        (dcontains acc k ||
          (isRecognizedTool t &&
            match t.result with
            | some d => dcontains d k
            | none => false)) := by
      unfold toolStep
      cases hr : isRecognizedTool t
      · simp
      · cases hres : t.result with
        | none => simp
        | some d => simp [dcontains_dupdate]
    rw [hstep]
    cases dcontains acc k <;> simp

/-- Membership in the accumulated tool results. -/
theorem dcontains_tool_results (ts : List ToolExecution) (k : String) :
    dcontains (tool_results_of ts) k =
      ts.any (fun t =>
        isRecognizedTool t &&
          match t.result with
          | some d => dcontains d k
          | none => false) := by
  rw [tool_results_of_eq_foldl, dcontains_foldl_toolStep]
  simp [dcontains]

/-- When every recorded execution failed recovery, the fold returns the
accumulator unchanged. -/
theorem foldl_toolStep_all_none (ts : List ToolExecution) (acc : Dict)
    (h : ∀ t ∈ ts, t.result = none) :
    ts.foldl toolStep acc = acc := by
  induction ts generalizing acc with
  | nil => rfl
  | cons t ts ih =>
    have ht : t.result = none := h t (by simp)
    have hstep : toolStep acc t = acc := by
      unfold toolStep
      rw [ht]
      cases isRecognizedTool t <;> simp
    simp only [List.foldl_cons, hstep]
    exact ih acc (fun t ht2 => h t (by simp [ht2]))

/-- When no execution is a recognized tool with a recovered result, the
fold returns the accumulator unchanged. -/
theorem foldl_toolStep_all_trivial (ts : List ToolExecution) (acc : Dict)
    (h : ∀ t ∈ ts, isRecognizedTool t = false ∨ t.result = none) :
    ts.foldl toolStep acc = acc := by
  induction ts generalizing acc with
  | nil => rfl
  | cons t ts ih =>
    have hstep : toolStep acc t = acc := by
      rcases h t (by simp) with hr | hres
      · simp [toolStep, hr]
      · unfold toolStep
        rw [hres]
        cases isRecognizedTool t <;> simp
    simp only [List.foldl_cons, hstep]
    exact ih acc (fun t ht2 => h t (by simp [ht2]))

/-- A nonempty accumulated tool result exhibits a recognized execution
whose recovery succeeded. -/
theorem tool_results_ne_nil (ts : List ToolExecution)
    (h : tool_results_of ts ≠ []) :
    ∃ t ∈ ts, isRecognizedTool t = true ∧ t.result.isSome = true := by
  by_contra hno
  push_neg at hno
  apply h
  rw [tool_results_of_eq_foldl]
  apply foldl_toolStep_all_trivial
  intro t ht
  by_cases hr : isRecognizedTool t = true
  · have := hno t ht hr
    right
    cases hres : t.result with
    | none => rfl
    | some d =>
      rw [hres] at this
      simp at this
  · left; exact eq_false_of_ne_true hr

/-- Presence of the processing_results fragment is exactly the trigger
test on the merged workflow dict. -/
theorem upload_split_snd_isSome (w : Dict) :
    ((upload_split w).2).isSome = triggerKeys.any (fun k => dcontains w k) := by
  unfold upload_split
  cases h : triggerKeys.any (fun k => dcontains w k) <;> simp [h]

/-- Lookup of should_process in a fallback skip decision. -/
theorem dlookup_skipFallback_sp (r : String) :
    dlookup (skipFallback r) kShouldProcess = some (JVal.jbool false) := by
  simp [skipFallback, dlookup]

/-- Lookup of workflow_type in a fallback skip decision. -/
theorem dlookup_skipFallback_wt (r : String) :
    dlookup (skipFallback r) kWorkflowType = some (JVal.jstr wtSkip) := by
  have h1 : (kShouldProcess == kWorkflowType) = false := by decide
  simp [skipFallback, dlookup, h1]

/-- Lookup of reason in a fallback skip decision. -/
theorem dlookup_skipFallback_reason (r : String) :
    dlookup (skipFallback r) kReason = some (JVal.jstr r) := by
  have h1 : (kShouldProcess == kReason) = false := by decide
  have h2 : (kWorkflowType == kReason) = false := by decide
  simp [skipFallback, dlookup, h1, h2]

/-- A dict whose keys all pass an allowlist only contains allowlisted
keys. -/
theorem all_keys_imp (allow : List String) (d : Dict) (k : String)
    (hall : d.all (fun kv => allow.contains kv.1) = true)
    (hc : dcontains d k = true) : allow.contains k = true := by
  simp only [dcontains, List.any_eq_true] at hc
  obtain ⟨kv, hmem, hk⟩ := hc
  have := (List.all_eq_true.mp hall) kv hmem
  simp only [beq_iff_eq] at hk
  rw [← hk]
  exact this

/-- Lookup after inserting the key itself. -/
theorem dlookup_dinsert_self (d : Dict) (k : String) (v : JVal) :
    dlookup (dinsert d k v) k = some v := by
  induction d with
  | nil => simp [dinsert, dlookup]
  | cons kv t ih =>
    by_cases h : kv.1 = k
    · simp [dinsert, h, dlookup]
    · have hb : (kv.1 == k) = false := by simpa using h
      simp [dinsert, hb, dlookup, ih]

/-- After an update from a dict with distinct keys, each updated key holds
the value the update dict holds for it. -/
theorem dlookup_dupdate_mem (d2 : Dict)
    (hnd : (d2.map Prod.fst).Nodup) (d1 : Dict) (k : String) (v : JVal)
    (hmem : (k, v) ∈ d2) :
    dlookup (dupdate d1 d2) k = some v := by
  induction d2 generalizing d1 with
  | nil => cases hmem
  | cons kv t ih =>
    simp only [List.map_cons, List.nodup_cons] at hnd
    rcases List.mem_cons.mp hmem with heq | hmem2
    · have hkv1 : kv.1 = k := by rw [← heq]
      have hkv2 : kv.2 = v := by rw [← heq]
      have hc : dcontains t k = false := by
        simp only [dcontains, List.any_eq_false]
        intro kv2 hkv2m
        simp only [beq_iff_eq]
        intro hkk
        exact hnd.1 (hkv1 ▸ hkk ▸ List.mem_map_of_mem Prod.fst hkv2m)
      show dlookup (dupdate (dinsert d1 kv.1 kv.2) t) k = some v
      rw [hkv1, hkv2, dlookup_dupdate_not_contains t (dinsert d1 k v) k hc,
        dlookup_dinsert_self]
    · show dlookup (dupdate (dinsert d1 kv.1 kv.2) t) k = some v
      exact ih hnd.2 _ hmem2

/-- Filtering by an allowlist preserves lookups of allowlisted keys. -/
theorem dlookup_dfilterKeys_mem (allow : List String) (d : Dict) (k : String)
    (h : allow.contains k = true) :
    dlookup (dfilterKeys allow d) k = dlookup d k := by
  induction d with
  | nil => rfl
  | cons kv t ih =>
    unfold dfilterKeys
    by_cases hk : allow.contains kv.1 = true
    · simp only [hk, if_true]
      by_cases he : kv.1 = k
      · simp [dlookup, he]
      · have hb : (kv.1 == k) = false := by simpa using he
        simp only [dlookup, hb, Bool.false_eq_true, if_false]
        exact ih
    · have hb : allow.contains kv.1 = false := eq_false_of_ne_true hk
      have he : kv.1 ≠ k := by
        intro heq
        rw [heq, h] at hb
        cases hb
      have hbe : (kv.1 == k) = false := by simpa using he
      simp only [hb, Bool.false_eq_true, if_false]
      rw [show dlookup (kv :: t) k = dlookup t k by simp [dlookup, hbe]]
      exact ih

/-- Decision recovery lands in one of the two parse fallbacks exactly when
decision_failed holds. -/
theorem decision_from_response_of_failed (c : String)
    (h : decision_failed c = true) :
    (∃ rt, decision_from_response c = fallbackNoJson rt) ∨
      (∃ js, decision_from_response c = fallbackBadJson js) := by
  unfold decision_failed at h
  unfold decision_from_response
  cases hf : strFind (cleanedResponseText c) lbrace with
  | none =>
    left
    exact ⟨_, rfl⟩
  | some si =>
    rw [hf] at h
    replace h : jsonLoadsObj (braceSlice (cleanedResponseText c) si) = none :=
      Option.isNone_iff_eq_none.mp h
    right
    simp only [h]
    exact ⟨_, rfl⟩

/-- Tool results recovered from dicts free of decision keys stay free of
decision keys. -/
theorem tool_results_no_decision_keys (ts : List ToolExecution)
    (htools : ts.all (fun t =>
        match t.result with
        | some d => d.all (fun kv => !(decisionKeys.contains kv.1))
        | none => true) = true)
    (k : String) (hk : decisionKeys.contains k = true) :
    dcontains (tool_results_of ts) k = false := by
  rw [dcontains_tool_results]
  simp only [List.any_eq_false]
  intro t ht
  have hres := (List.all_eq_true.mp htools) t ht
  cases hres2 : t.result with
  | none => simp
  | some d =>
    rw [hres2] at hres
    cases hr : isRecognizedTool t
    · simp
    · intro hany
      have hany2 : dcontains d k = true := hany
      simp only [dcontains, List.any_eq_true] at hany2
      obtain ⟨kv, hkvmem, hkvk⟩ := hany2
      have h2 := (List.all_eq_true.mp hres) kv hkvmem
      simp only [Bool.not_eq_true'] at h2
      rw [beq_iff_eq.mp hkvk] at h2
      rw [hk] at h2
      cases h2

/-- Taking the same character bound twice equals taking it once. -/
theorem pyTake_idem (s : String) (n : Nat) : pyTake (pyTake s n) n = pyTake s n := by
  simp [pyTake, List.take_take]

/-- Lookup of extracted_text in the text-tool success dict. -/
theorem dlookup_textSuccess_extracted (e : String) (wc : Nat) (ct : String) :
    dlookup (textSuccessDict e wc ct) kExtractedText = some (JVal.jstr (pyTake e 1000)) := by
  have h1 : (kSuccess == kExtractedText) = false := by decide
  simp [textSuccessDict, dlookup, h1]

/-- Lookup of success in the text-tool success dict. -/
theorem dlookup_textSuccess_success (e : String) (wc : Nat) (ct : String) :
    dlookup (textSuccessDict e wc ct) kSuccess = some (JVal.jbool true) := by
  simp [textSuccessDict, dlookup]

/-- The text-tool success dict carries no error key. -/
theorem dcontains_textSuccess_error (e : String) (wc : Nat) (ct : String) :
    dcontains (textSuccessDict e wc ct) kError = false := by
  have h1 : (kSuccess == kError) = false := by decide
  have h2 : (kExtractedText == kError) = false := by decide
  have h3 : (kWordCount == kError) = false := by decide
  have h4 : (kContentType == kError) = false := by decide
  have h5 : (kProcessingMethod == kError) = false := by decide
  simp [textSuccessDict, dcontains, h1, h2, h3, h4, h5]

/-- Lookup of success in the text-tool error dict. -/
theorem dlookup_textError_success (e : String) (ct : String) :
    dlookup (textErrorDict e ct) kSuccess = some (JVal.jbool false) := by
  simp [textErrorDict, dlookup]

/-- Lookup of error in the text-tool error dict. -/
theorem dlookup_textError_error (e : String) (ct : String) :
    dlookup (textErrorDict e ct) kError = some (JVal.jstr e) := by
  have h1 : (kSuccess == kError) = false := by decide
  simp [textErrorDict, dlookup, h1]

/-- The text-tool error dict carries no extracted_text key. -/
theorem dcontains_textError_extracted (e : String) (ct : String) :
    dcontains (textErrorDict e ct) kExtractedText = false := by
  have h1 : (kSuccess == kExtractedText) = false := by decide
  have h2 : (kError == kExtractedText) = false := by decide
  have h3 : (kContentType == kExtractedText) = false := by decide
  have h4 : (kProcessingMethod == kExtractedText) = false := by decide
  simp [textErrorDict, dcontains, h1, h2, h3, h4]

/-- The text-tool error dict contains the success key. -/
theorem dcontains_textError_success (e : String) (ct : String) :
    dcontains (textErrorDict e ct) kSuccess = true := by
  simp [textErrorDict, dcontains]

/-- Claim C4 counterexample: The claim says any two classifier invocations with
the same content type return the same decision; but with the same content
type text/plain and two different agent-model responses, the recovered
decisions differ, so the decision is not a function of the content type. -/
theorem classify_same_content_type_differs :
    process_document_metadata ctPlain 7 ("f.txt") ("http://u")
        (Except.ok ⟨("\x7b\"should_process\": true, \"workflow_type\": \"text_processing\", \"reason\": \"text document\"\x7d"), []⟩)
      ≠
    process_document_metadata ctPlain 7 ("f.txt") ("http://u")
        (Except.ok ⟨("\x7b\"should_process\": false, \"workflow_type\": \"skip_processing\", \"reason\": \"model chose skip\"\x7d"), []⟩) := by
  decide

/-- Claim C4 amended: The decision outcome of process_document_metadata is fully
determined by the agent run outcome alone: the content type, file size,
filename and file URL never influence it, so determinism holds relative to
the model response and not per content type. -/
theorem process_document_metadata_ignores_metadata
    (ct ct2 : String) (fs fs2 : Int) (fn fn2 fu fu2 : String)
    (run : Except String RunResponse) :
    process_document_metadata ct fs fn fu run
      = process_document_metadata ct2 fs2 fn2 fu2 run := rfl

/-- Claim C9: Whenever the upload handler performs the decision/results split
(that is, a trigger key is present in the merged agent output), every key
outside both allowlists is dropped from both persisted fragments. -/
theorem upload_split_drops_unlisted (w : Dict) (k : String)
    (htrig : triggerKeys.any (fun k2 => dcontains w k2) = true)
    (hd : decisionKeys.contains k = false)
    (hr : resultKeys.contains k = false) :
    dcontains (upload_split w).1 k = false ∧
    ∀ r, (upload_split w).2 = some r → dcontains r k = false := by
  unfold upload_split
  rw [if_pos htrig]
  refine ⟨dcontains_dfilterKeys decisionKeys w k hd, ?_⟩
  intro r hr2
  have h2 : dfilterKeys resultKeys w = r := Option.some.inj hr2
  rw [← h2]
  exact dcontains_dfilterKeys resultKeys w k hr

/-- Claim C9 witness: the merged output of an image-processing run carries
content_type, detected_objects and scene_type out of the image tool, and
the split drops detected_objects from both fragments. -/
theorem upload_split_drops_unlisted_witness :
    (triggerKeys.any (fun k2 => dcontains (dupdate
        [(kShouldProcess, JVal.jbool true),
         (kWorkflowType, JVal.jstr ("image_processing")),
         (kReason, JVal.jstr ("image"))]
        ((image_analysis_tool ("http://u") ("image/png")
          ⟨fun _ => Except.ok ("A cat on a windowsill.")⟩).1)) k2) = true) ∧
    dcontains (upload_split (dupdate
        [(kShouldProcess, JVal.jbool true),
         (kWorkflowType, JVal.jstr ("image_processing")),
         (kReason, JVal.jstr ("image"))]
        ((image_analysis_tool ("http://u") ("image/png")
          ⟨fun _ => Except.ok ("A cat on a windowsill.")⟩).1))).1 kDetectedObjects = false ∧
    ∀ r, (upload_split (dupdate
        [(kShouldProcess, JVal.jbool true),
         (kWorkflowType, JVal.jstr ("image_processing")),
         (kReason, JVal.jstr ("image"))]
        ((image_analysis_tool ("http://u") ("image/png")
          ⟨fun _ => Except.ok ("A cat on a windowsill.")⟩).1))).2 = some r →
      dcontains r kDetectedObjects = false :=
  ⟨by decide,
    upload_split_drops_unlisted _ kDetectedObjects (by decide) (by decide) (by decide)⟩

/-- Claim C2 counterexample: The claim says extraction fields never reach the
persisted ai_workflow fragment; but when the agent decision JSON carries
an error key and no trigger key, the split never runs and the error field
(an extraction field) is persisted inside ai_workflow. -/
theorem upload_error_leaks_into_ai_workflow :
    dcontains (upload_document_fragments ctPlain 3 ("f.txt") ("http://u")
        (Except.ok ⟨("\x7b\"should_process\": false, \"workflow_type\": \"skip_processing\", \"reason\": \"r\", \"error\": \"boom\"\x7d"), []⟩)).1
      kError = true ∧
    resultKeys.contains kError = true ∧
    (upload_document_fragments ctPlain 3 ("f.txt") ("http://u")
        (Except.ok ⟨("\x7b\"should_process\": false, \"workflow_type\": \"skip_processing\", \"reason\": \"r\", \"error\": \"boom\"\x7d"), []⟩)).2 = none := by
  decide

/-- Claim C2 amended: When the merged agent output contains a trigger key, the
split places no extraction field into ai_workflow and no decision field
into processing_results; without a trigger key the merged output is
persisted unchanged as ai_workflow, so word_count or error can remain
there. -/
theorem upload_split_no_cross_when_triggered (w : Dict)
    (htrig : triggerKeys.any (fun k2 => dcontains w k2) = true) :
    (∀ k, resultKeys.contains k = true → dcontains (upload_split w).1 k = false) ∧
    (∀ k r, decisionKeys.contains k = true → (upload_split w).2 = some r →
      dcontains r k = false) := by
  unfold upload_split
  rw [if_pos htrig]
  constructor
  · intro k hk
    apply dcontains_dfilterKeys
    have hmem : k ∈ resultKeys := by simpa using hk
    fin_cases hmem <;> decide
  · intro k r hk hr2
    have h2 : dfilterKeys resultKeys w = r := Option.some.inj hr2
    rw [← h2]
    apply dcontains_dfilterKeys
    have hmem : k ∈ decisionKeys := by simpa using hk
    fin_cases hmem <;> decide

/-- Claim C2 amended witness: a merged output holding both decision fields and a
failed-extraction result is split without cross-contamination. -/
theorem upload_split_no_cross_witness :
    (triggerKeys.any (fun k2 => dcontains (dupdate
        [(kShouldProcess, JVal.jbool true),
         (kWorkflowType, JVal.jstr ("text_processing")),
         (kReason, JVal.jstr ("text document"))]
        (textErrorDict ("network down") ctPlain)) k2) = true) ∧
    ((∀ k, resultKeys.contains k = true →
        dcontains (upload_split (dupdate
          [(kShouldProcess, JVal.jbool true),
           (kWorkflowType, JVal.jstr ("text_processing")),
           (kReason, JVal.jstr ("text document"))]
          (textErrorDict ("network down") ctPlain))).1 k = false) ∧
      (∀ k r, decisionKeys.contains k = true →
        (upload_split (dupdate
          [(kShouldProcess, JVal.jbool true),
           (kWorkflowType, JVal.jstr ("text_processing")),
           (kReason, JVal.jstr ("text document"))]
          (textErrorDict ("network down") ctPlain))).2 = some r →
        dcontains r k = false)) :=
  ⟨by decide, upload_split_no_cross_when_triggered _ (by decide)⟩

/-- Length bound of a Python character slice. -/
theorem pyTake_length_le (s : String) (n : Nat) : (pyTake s n).length ≤ n := by
  have h : (pyTake s n).length = (s.toList.take n).length := rfl
  rw [h, List.length_take]
  exact min_le_left _ _

/-- The slice s[:n] followed by s[n:] recovers the whole string, so the
slice is an initial segment of the string. -/
theorem pyTake_append_pyDrop (s : String) (n : Nat) :
    pyTake s n ++ pyDrop s n = s := by
  have h : pyTake s n ++ pyDrop s n
      = String.mk (s.toList.take n ++ s.toList.drop n) := rfl
  rw [h, List.take_append_drop]
  rfl

/-- The word count of the empty string is zero. -/
theorem pyWordCount_empty : pyWordCount ("") = 0 := rfl

/-- Claim C5 counterexample: The claim says every raw text of word count at most
five yields exactly the trimmed text truncated to 1000 characters; the
empty raw text has word count zero, yet the placeholder text is returned
instead of the empty string. -/
theorem text_post_process_empty_raw_counterexample :
    pyWordCount (pyStrip ("")) ≤ 5 ∧
    dlookup (text_post_process ctPlain ("") (fun _ => Except.error (""))).1
        kExtractedText = some (JVal.jstr msgNoMeaningful) ∧
    msgNoMeaningful ≠ pyTake (pyStrip ("")) 1000 ∧
    (text_post_process ctPlain ("") (fun _ => Except.error (""))).2 = [] := by
  decide

/-- Claim C5 amended: For every raw text whose trimmed form is nonempty and has
word count at most five, post-processing returns exactly the trimmed raw
text truncated to 1000 characters as the content and never invokes the
summarizer; an empty trimmed text instead yields the fixed placeholder. -/
theorem text_post_process_short_circuit (content_type raw0 : String)
    (summarize : String → Except String String)
    (hne : pyStrip raw0 ≠ "")
    (hwc : pyWordCount (pyStrip raw0) ≤ 5) :
    dlookup (text_post_process content_type raw0 summarize).1 kExtractedText
      = some (JVal.jstr (pyTake (pyStrip raw0) 1000)) ∧
    (text_post_process content_type raw0 summarize).2 = [] := by
  have hgt : ¬ (pyWordCount (pyStrip raw0) > 5) := by omega
  simp only [text_post_process, if_pos hne, if_neg hgt]
  exact ⟨by rw [dlookup_textSuccess_extracted, pyTake_idem], trivial⟩

/-- Claim C5 witness: a two-word text short-circuits to its own trimmed text
with no summarizer call. -/
theorem text_post_process_short_circuit_witness :
    (pyStrip ("hello world") ≠ "" ∧ pyWordCount (pyStrip ("hello world")) ≤ 5) ∧
    (dlookup (text_post_process ctPlain ("hello world")
          (fun _ => Except.error ("unused"))).1 kExtractedText
        = some (JVal.jstr (pyTake (pyStrip ("hello world")) 1000)) ∧
      (text_post_process ctPlain ("hello world")
          (fun _ => Except.error ("unused"))).2 = []) :=
  ⟨⟨by decide, by decide⟩,
    text_post_process_short_circuit ctPlain ("hello world")
      (fun _ => Except.error ("unused")) (by decide) (by decide)⟩

/-- Claim C6: For every raw text of word count above five, exactly one prompt is
sent to the summarizer, the raw-text portion inside it is the first slice
of at most 4000 characters of the trimmed text (an initial segment, as the
take and drop concatenation shows), and a successful response is cleaned
of markdown markers and truncated to 1000 characters before use. -/
theorem text_post_process_summarizes_truncated (content_type raw0 : String)
    (summarize : String → Except String String)
    (hwc : 5 < pyWordCount (pyStrip raw0)) :
    (text_post_process content_type raw0 summarize).2
        = [summaryPromptOf (pyTake (pyStrip raw0) 4000)] ∧
    (pyTake (pyStrip raw0) 4000).length ≤ 4000 ∧
    pyTake (pyStrip raw0) 4000 ++ pyDrop (pyStrip raw0) 4000 = pyStrip raw0 ∧
    ∀ s, summarize (summaryPromptOf (pyTake (pyStrip raw0) 4000)) = Except.ok s →
      dlookup (text_post_process content_type raw0 summarize).1 kExtractedText
        = some (JVal.jstr (pyTake (cleanModelResponse s) 1000)) := by
  have hne : pyStrip raw0 ≠ "" := by
    intro h
    rw [h, pyWordCount_empty] at hwc
    omega
  have hgt : pyWordCount (pyStrip raw0) > 5 := hwc
  refine ⟨?_, pyTake_length_le _ _, pyTake_append_pyDrop _ _, ?_⟩
  · simp only [text_post_process, if_pos hne, if_pos hgt]
    cases hs : summarize (summaryPromptOf (pyTake (pyStrip raw0) 4000)) <;> rfl
  · intro s hs
    simp only [text_post_process, if_pos hne, if_pos hgt, hs]
    rw [dlookup_textSuccess_extracted]

/-- Claim C6 witness: a six-word text is summarized through a single prompt
holding its full trimmed text, and the response is used truncated. -/
theorem text_post_process_summarizes_truncated_witness :
    (5 < pyWordCount (pyStrip ("one two three four five six"))) ∧
    ((text_post_process ctPlain ("one two three four five six")
          (fun _ => (Except.ok ("A summary.") : Except String String))).2
        = [summaryPromptOf (pyTake (pyStrip ("one two three four five six")) 4000)] ∧
      (pyTake (pyStrip ("one two three four five six")) 4000).length ≤ 4000 ∧
      pyTake (pyStrip ("one two three four five six")) 4000
          ++ pyDrop (pyStrip ("one two three four five six")) 4000
        = pyStrip ("one two three four five six") ∧
      ∀ s, (fun _ => (Except.ok ("A summary.") : Except String String))
            (summaryPromptOf (pyTake (pyStrip ("one two three four five six")) 4000))
          = Except.ok s →
        dlookup (text_post_process ctPlain ("one two three four five six")
            (fun _ => (Except.ok ("A summary.") : Except String String))).1 kExtractedText
          = some (JVal.jstr (pyTake (cleanModelResponse s) 1000))) :=
  ⟨by decide,
    text_post_process_summarizes_truncated ctPlain ("one two three four five six")
      (fun _ => (Except.ok ("A summary.") : Except String String)) (by decide)⟩

/-- Claim C8 counterexample: The claim says an empty summarizer response is
surfaced as an explicit failure; but the code accepts an empty response
and returns success=true with empty content and no error. -/
theorem text_post_process_empty_summary_counterexample :
    5 < pyWordCount (pyStrip ("one two three four five six")) ∧
    dlookup (text_post_process ctPlain ("one two three four five six")
        (fun _ => Except.ok (""))).1 kSuccess = some (JVal.jbool true) ∧
    dlookup (text_post_process ctPlain ("one two three four five six")
        (fun _ => Except.ok (""))).1 kExtractedText = some (JVal.jstr ("")) ∧
    dcontains (text_post_process ctPlain ("one two three four five six")
        (fun _ => Except.ok (""))).1 kError = false := by
  decide

/-- Claim C8 amended: When the summarizer call raises, post-processing surfaces
the explicit error dictionary: success=false, the error message set, and
no extracted content substituted from the raw pre-summarization text; an
empty non-raising response is not detected and flows through as
successful content. -/
theorem text_post_process_capability_error (content_type raw0 e : String)
    (summarize : String → Except String String)
    (hwc : 5 < pyWordCount (pyStrip raw0))
    (hs : summarize (summaryPromptOf (pyTake (pyStrip raw0) 4000)) = Except.error e) :
    (text_post_process content_type raw0 summarize).1 = textErrorDict e content_type ∧
    dlookup (text_post_process content_type raw0 summarize).1 kSuccess
      = some (JVal.jbool false) ∧
    dlookup (text_post_process content_type raw0 summarize).1 kError
      = some (JVal.jstr e) ∧
    dcontains (text_post_process content_type raw0 summarize).1 kExtractedText = false := by
  have hne : pyStrip raw0 ≠ "" := by
    intro h
    rw [h, pyWordCount_empty] at hwc
    omega
  have hgt : pyWordCount (pyStrip raw0) > 5 := hwc
  simp only [text_post_process, if_pos hne, if_pos hgt, hs]
  exact ⟨trivial, dlookup_textError_success e content_type,
    dlookup_textError_error e content_type,
    dcontains_textError_extracted e content_type⟩

/-- Claim C8 amended witness: a raising summarizer on a six-word text yields the
explicit failure dictionary. -/
theorem text_post_process_capability_error_witness :
    (5 < pyWordCount (pyStrip ("one two three four five six")) ∧
      (fun _ => Except.error ("model timeout"))
          (summaryPromptOf (pyTake (pyStrip ("one two three four five six")) 4000))
        = (Except.error ("model timeout") : Except String String)) ∧
    ((text_post_process ctPlain ("one two three four five six")
          (fun _ => Except.error ("model timeout"))).1
        = textErrorDict ("model timeout") ctPlain ∧
      dlookup (text_post_process ctPlain ("one two three four five six")
          (fun _ => Except.error ("model timeout"))).1 kSuccess
        = some (JVal.jbool false) ∧
      dlookup (text_post_process ctPlain ("one two three four five six")
          (fun _ => Except.error ("model timeout"))).1 kError
        = some (JVal.jstr ("model timeout")) ∧
      dcontains (text_post_process ctPlain ("one two three four five six")
          (fun _ => Except.error ("model timeout"))).1 kExtractedText = false) :=
  ⟨⟨by decide, rfl⟩,
    text_post_process_capability_error ctPlain ("one two three four five six")
      ("model timeout") (fun _ => Except.error ("model timeout"))
      (by decide) rfl⟩

/-- Claim C1: The orchestrator is a total function (it never raises past its
boundary), and on any internal failure — the agent run raising, or the
decision recovery failing to find or parse JSON — the returned outcome is
a well-formed skip decision: should_process=false,
workflow_type=skip_processing, and a reason string describing the fault.
The tool hypothesis reflects that recovered tool dictionaries are tool
outputs, which never carry decision keys. -/
theorem process_document_metadata_internal_failure
    (content_type : String) (file_size : Int) (filename file_url : String)
    (run : Except String RunResponse)
    (hfail : match run with
      | Except.error _ => True
      | Except.ok resp => decision_failed resp.content = true)
    (htools : ∀ resp, run = Except.ok resp →
        resp.tools.all (fun t =>
          match t.result with
          | some d => d.all (fun kv => !(decisionKeys.contains kv.1))
          | none => true) = true) :
    dlookup (process_document_metadata content_type file_size filename file_url run)
        kShouldProcess = some (JVal.jbool false) ∧
    dlookup (process_document_metadata content_type file_size filename file_url run)
        kWorkflowType = some (JVal.jstr wtSkip) ∧
    ∃ r, dlookup (process_document_metadata content_type file_size filename file_url run)
        kReason = some (JVal.jstr r) := by
  cases run with
  | error e =>
    exact ⟨dlookup_skipFallback_sp _, dlookup_skipFallback_wt _,
      ⟨_, dlookup_skipFallback_reason _⟩⟩
  | ok resp =>
    have hfail2 : decision_failed resp.content = true := hfail
    have htools2 := htools resp rfl
    have hdec3 : ∃ r0, decision_from_response resp.content = skipFallback r0 := by
      obtain ⟨rt, h⟩ | ⟨js, h⟩ := decision_from_response_of_failed resp.content hfail2
      · exact ⟨_, h⟩
      · exact ⟨_, h⟩
    obtain ⟨r0, hr0⟩ := hdec3
    have hlk : ∀ k, decisionKeys.contains k = true →
        dlookup (process_document_metadata content_type file_size filename file_url
          (Except.ok resp)) k = dlookup (decision_from_response resp.content) k := by
      intro k hk
      show dlookup (if (tool_results_of resp.tools).isEmpty
          then decision_from_response resp.content
          else dupdate (decision_from_response resp.content)
            (tool_results_of resp.tools)) k = _
      by_cases he : (tool_results_of resp.tools).isEmpty = true
      · rw [if_pos he]
      · rw [if_neg he,
          dlookup_dupdate_not_contains _ _ _
            (tool_results_no_decision_keys _ htools2 k hk)]
    refine ⟨?_, ?_, ⟨r0, ?_⟩⟩
    · rw [hlk kShouldProcess (by decide), hr0]
      exact dlookup_skipFallback_sp r0
    · rw [hlk kWorkflowType (by decide), hr0]
      exact dlookup_skipFallback_wt r0
    · rw [hlk kReason (by decide), hr0]
      exact dlookup_skipFallback_reason r0

/-- Claim C1 witness: when the agent run raises, the outcome is the skip
fallback with a reason. -/
theorem process_document_metadata_internal_failure_witness :
    dlookup (process_document_metadata ctPlain 0 ("f.txt") ("http://u")
        (Except.error ("boom"))) kShouldProcess = some (JVal.jbool false) ∧
    dlookup (process_document_metadata ctPlain 0 ("f.txt") ("http://u")
        (Except.error ("boom"))) kWorkflowType = some (JVal.jstr wtSkip) ∧
    ∃ r, dlookup (process_document_metadata ctPlain 0 ("f.txt") ("http://u")
        (Except.error ("boom"))) kReason = some (JVal.jstr r) :=
  process_document_metadata_internal_failure ctPlain 0 ("f.txt") ("http://u")
    (Except.error ("boom")) trivial (fun resp h => by cases h)

/-- Claim C10: When every recorded tool execution fails result recovery (eval
raises), the tool outputs are silently discarded: with a clean decision
JSON the returned outcome is exactly the decision dict, and
processing_results is persisted as absent even though an extractor ran
(the execution list is nonempty). -/
theorem tool_recovery_failure_discards
    (content_type : String) (file_size : Int) (filename file_url : String)
    (c : String) (ts : List ToolExecution)
    (hran : ts ≠ [])
    (hallfail : ts.all (fun t => t.result.isNone) = true)
    (hclean : (decision_from_response c).all
        (fun kv => decisionKeys.contains kv.1) = true) :
    process_document_metadata content_type file_size filename file_url
        (Except.ok ⟨c, ts⟩) = decision_from_response c ∧
    (upload_document_fragments content_type file_size filename file_url
        (Except.ok ⟨c, ts⟩)).2 = none := by
  have hnil : tool_results_of ts = [] := by
    rw [tool_results_of_eq_foldl]
    apply foldl_toolStep_all_none
    intro t ht
    exact Option.isNone_iff_eq_none.mp ((List.all_eq_true.mp hallfail) t ht)
  have hpdm : process_document_metadata content_type file_size filename file_url
      (Except.ok ⟨c, ts⟩) = decision_from_response c := by
    show (if (tool_results_of ts).isEmpty then decision_from_response c
        else dupdate (decision_from_response c) (tool_results_of ts)) = _
    rw [hnil]
    rfl
  refine ⟨hpdm, ?_⟩
  have htrig : triggerKeys.any (fun k => dcontains (decision_from_response c) k)
      = false := by
    simp only [List.any_eq_false]
    intro k hk
    intro hcon
    have h2 := all_keys_imp decisionKeys _ k hclean hcon
    fin_cases hk <;> exact absurd h2 (by decide)
  show (upload_split (process_document_metadata content_type file_size filename
      file_url (Except.ok ⟨c, ts⟩))).2 = none
  rw [hpdm]
  simp only [upload_split, htrig, Bool.false_eq_true, if_false]

/-- Claim C10 witness: one text-tool execution whose serialized result fails to
evaluate leaves only the decision fields and an absent
processing_results. -/
theorem tool_recovery_failure_discards_witness :
    (([⟨nameTextTool, none⟩] : List ToolExecution) ≠ [] ∧
      ([⟨nameTextTool, none⟩] : List ToolExecution).all
        (fun t => t.result.isNone) = true ∧
      (decision_from_response
          ("\x7b\"should_process\": true, \"workflow_type\": \"text_processing\", \"reason\": \"text document\"\x7d")).all
        (fun kv => decisionKeys.contains kv.1) = true) ∧
    (process_document_metadata ctPlain 3 ("f.txt") ("http://u")
        (Except.ok ⟨("\x7b\"should_process\": true, \"workflow_type\": \"text_processing\", \"reason\": \"text document\"\x7d"),
          [⟨nameTextTool, none⟩]⟩)
      = decision_from_response
          ("\x7b\"should_process\": true, \"workflow_type\": \"text_processing\", \"reason\": \"text document\"\x7d") ∧
      (upload_document_fragments ctPlain 3 ("f.txt") ("http://u")
        (Except.ok ⟨("\x7b\"should_process\": true, \"workflow_type\": \"text_processing\", \"reason\": \"text document\"\x7d"),
          [⟨nameTextTool, none⟩]⟩)).2 = none) :=
  ⟨⟨by decide, by decide, by decide⟩,
    tool_recovery_failure_discards ctPlain 3 ("f.txt") ("http://u")
      ("\x7b\"should_process\": true, \"workflow_type\": \"text_processing\", \"reason\": \"text document\"\x7d")
      ([⟨nameTextTool, none⟩]) (by decide) (by decide) (by decide)⟩

/-- Claim C3 counterexample: The claim says processing_results is present only
when should_process was true and an extractor ran; but when the agent
decision JSON decision JSON leaks a success key, the split triggers and
processing_results is persisted although the decision says skip and no
tool execution is recorded. -/
theorem processing_results_present_without_extractor :
    ((upload_document_fragments ctPlain 3 ("f.txt") ("http://u")
        (Except.ok ⟨("\x7b\"should_process\": false, \"workflow_type\": \"skip_processing\", \"reason\": \"r\", \"success\": true\x7d"),
          []⟩)).2).isSome = true ∧
    dlookup (process_document_metadata ctPlain 3 ("f.txt") ("http://u")
        (Except.ok ⟨("\x7b\"should_process\": false, \"workflow_type\": \"skip_processing\", \"reason\": \"r\", \"success\": true\x7d"),
          []⟩)) kShouldProcess = some (JVal.jbool false) := by
  decide

/-- Claim C3 amended: Presence of the persisted processing_results fragment
tracks the trigger keys, not the decision: when the decision JSON carries
only decision keys and every recovered tool dictionary carries the success
key (as every tool output does), processing_results is present exactly
when some recognized tool execution result was recovered — regardless of
should_process; in particular it is absent on the skip path where no
extractor ran. -/
theorem upload_fragments_presence
    (content_type : String) (file_size : Int) (filename file_url : String)
    (c : String) (ts : List ToolExecution)
    (hclean : (decision_from_response c).all
        (fun kv => decisionKeys.contains kv.1) = true)
    (hgen : ts.all (fun t =>
        match t.result with
        | some d => dcontains d kSuccess
        | none => true) = true) :
    ((upload_document_fragments content_type file_size filename file_url
        (Except.ok ⟨c, ts⟩)).2).isSome
      = ts.any (fun t => isRecognizedTool t && t.result.isSome) := by
  have hfr : ∀ k, k ∈ triggerKeys →
      dcontains (decision_from_response c) k = false := by
    intro k hk
    cases hcon : dcontains (decision_from_response c) k
    · rfl
    · have h2 := all_keys_imp decisionKeys _ k hclean hcon
      fin_cases hk <;> exact absurd h2 (by decide)
  show ((upload_split (process_document_metadata content_type file_size filename
      file_url (Except.ok ⟨c, ts⟩))).2).isSome = _
  rw [upload_split_snd_isSome]
  by_cases he : (tool_results_of ts).isEmpty = true
  · have hnil : tool_results_of ts = [] := List.isEmpty_iff.mp he
    have hpdm : process_document_metadata content_type file_size filename file_url
        (Except.ok ⟨c, ts⟩) = decision_from_response c := by
      show (if (tool_results_of ts).isEmpty then decision_from_response c
          else dupdate (decision_from_response c) (tool_results_of ts)) = _
      rw [hnil]
      rfl
    rw [hpdm]
    have hlhs : triggerKeys.any
        (fun k => dcontains (decision_from_response c) k) = false := by
      simp only [List.any_eq_false]
      intro k hk
      simp [hfr k hk]
    rw [hlhs]
    cases hany : ts.any (fun t => isRecognizedTool t && t.result.isSome)
    · rfl
    · exfalso
      obtain ⟨t, ht, hcond⟩ := List.any_eq_true.mp hany
      simp only [Bool.and_eq_true] at hcond
      obtain ⟨hrec, hsome⟩ := hcond
      obtain ⟨d, hd⟩ := Option.isSome_iff_exists.mp hsome
      have hs := (List.all_eq_true.mp hgen) t ht
      rw [hd] at hs
      have hs2 : dcontains d kSuccess = true := hs
      have hsucc : dcontains (tool_results_of ts) kSuccess = true := by
        rw [dcontains_tool_results]
        apply List.any_eq_true.mpr
        exact ⟨t, ht, by simp [hrec, hd, hs2]⟩
      rw [hnil] at hsucc
      simp [dcontains] at hsucc
  · have hne : tool_results_of ts ≠ [] := by
      intro h
      rw [h] at he
      exact he rfl
    have hpdm : process_document_metadata content_type file_size filename file_url
        (Except.ok ⟨c, ts⟩)
        = dupdate (decision_from_response c) (tool_results_of ts) := by
      show (if (tool_results_of ts).isEmpty then decision_from_response c
          else dupdate (decision_from_response c) (tool_results_of ts)) = _
      rw [if_neg he]
    rw [hpdm]
    obtain ⟨t, ht, hrec, hsome⟩ := tool_results_ne_nil ts hne
    have hrhs : ts.any (fun t => isRecognizedTool t && t.result.isSome) = true :=
      List.any_eq_true.mpr ⟨t, ht, by simp [hrec, hsome]⟩
    rw [hrhs]
    obtain ⟨d, hd⟩ := Option.isSome_iff_exists.mp hsome
    have hs := (List.all_eq_true.mp hgen) t ht
    rw [hd] at hs
    have hs2 : dcontains d kSuccess = true := hs
    have htr : dcontains (tool_results_of ts) kSuccess = true := by
      rw [dcontains_tool_results]
      exact List.any_eq_true.mpr ⟨t, ht, by simp [hrec, hd, hs2]⟩
    apply List.any_eq_true.mpr
    refine ⟨kSuccess, by decide, ?_⟩
    rw [dcontains_dupdate]
    simp [htr]

/-- Claim C3 amended witness: with a clean text-processing decision and one
recovered text-tool result, processing_results is present; the same
theorem applied with an empty execution list shows the skip-path
absence. -/
theorem upload_fragments_presence_witness :
    ((decision_from_response
          ("\x7b\"should_process\": true, \"workflow_type\": \"text_processing\", \"reason\": \"text document\"\x7d")).all
        (fun kv => decisionKeys.contains kv.1) = true ∧
      ([⟨nameTextTool, some (textSuccessDict ("hello world") 2 ctPlain)⟩]
          : List ToolExecution).all
        (fun t => match t.result with
          | some d => dcontains d kSuccess
          | none => true) = true) ∧
    ((upload_document_fragments ctPlain 3 ("f.txt") ("http://u")
        (Except.ok ⟨("\x7b\"should_process\": true, \"workflow_type\": \"text_processing\", \"reason\": \"text document\"\x7d"),
          [⟨nameTextTool, some (textSuccessDict ("hello world") 2 ctPlain)⟩]⟩)).2).isSome
      = ([⟨nameTextTool, some (textSuccessDict ("hello world") 2 ctPlain)⟩]
          : List ToolExecution).any
          (fun t => isRecognizedTool t && t.result.isSome) :=
  ⟨⟨by decide, by decide⟩,
    upload_fragments_presence ctPlain 3 ("f.txt") ("http://u")
      ("\x7b\"should_process\": true, \"workflow_type\": \"text_processing\", \"reason\": \"text document\"\x7d")
      ([⟨nameTextTool, some (textSuccessDict ("hello world") 2 ctPlain)⟩])
      (by decide) (by decide)⟩

/-- Updating the empty dict with the text-tool error dict reproduces it. -/
theorem dupdate_nil_textError (e ct : String) :
    dupdate [] (textErrorDict e ct) = textErrorDict e ct := by
  have h1 : (kSuccess == kError) = false := by decide
  have h2 : (kSuccess == kContentType) = false := by decide
  have h3 : (kError == kContentType) = false := by decide
  have h4 : (kSuccess == kProcessingMethod) = false := by decide
  have h5 : (kError == kProcessingMethod) = false := by decide
  have h6 : (kContentType == kProcessingMethod) = false := by decide
  simp [dupdate, textErrorDict, dinsert, h1, h2, h3, h4, h5, h6]

/-- Claim C7: When the fetch of file bytes raises, or the document structure is
unreadable (the PDF reader or DOCX parser raises), text_parsing_tool
returns the explicit failure dictionary — success=false, the error
message, no extracted content, no summarizer call — and the pipeline still
reaches the reconciliation split, which persists a processing_results
fragment carrying the failure. -/
theorem text_extraction_failure_flows_to_results
    (file_url content_type e : String) (env : TextToolEnv)
    (hfail :
      env.fetch = Except.error e ∨
      (env.fetch = Except.ok () ∧ content_type = ctPdf ∧
        env.pdf_pages = Except.error e) ∨
      (env.fetch = Except.ok () ∧ (content_type == ctPlain) = false ∧
        (content_type == ctPdf) = false ∧ (content_type == ctCsv) = false ∧
        pyIn wpNeedle content_type = true ∧
        env.docx_paragraphs = Except.error e)) :
    (text_parsing_tool file_url content_type env).1 = textErrorDict e content_type ∧
    (text_parsing_tool file_url content_type env).2 = [] ∧
    dlookup (text_parsing_tool file_url content_type env).1 kSuccess
      = some (JVal.jbool false) ∧
    dlookup (text_parsing_tool file_url content_type env).1 kError
      = some (JVal.jstr e) ∧
    dcontains (text_parsing_tool file_url content_type env).1 kExtractedText
      = false ∧
    ∀ (c : String) (fs : Int) (fn : String),
      ∃ res,
        (upload_document_fragments content_type fs fn file_url
          (Except.ok ⟨c, [⟨nameTextTool,
            some (text_parsing_tool file_url content_type env).1⟩]⟩)).2
          = some res ∧
        dlookup res kSuccess = some (JVal.jbool false) ∧
        dlookup res kError = some (JVal.jstr e) := by
  have h1 : (text_parsing_tool file_url content_type env).1
        = textErrorDict e content_type ∧
      (text_parsing_tool file_url content_type env).2 = [] := by
    obtain hf | ⟨hf, hct, hpdf⟩ | ⟨hf, hc1, hc2, hc3, hwp, hdocx⟩ := hfail
    · simp [text_parsing_tool, hf]
    · subst hct
      have hb1 : (ctPdf == ctPlain) = false := by decide
      simp [text_parsing_tool, hf, raw_text_of, hb1, hpdf, Except.map]
    · simp [text_parsing_tool, hf, raw_text_of, hc1, hc2, hc3, hwp, hdocx,
        Except.map]
  obtain ⟨h1a, h1b⟩ := h1
  refine ⟨h1a, h1b, ?_, ?_, ?_, ?_⟩
  · rw [h1a]
    exact dlookup_textError_success e content_type
  · rw [h1a]
    exact dlookup_textError_error e content_type
  · rw [h1a]
    exact dcontains_textError_extracted e content_type
  · intro c fs fn
    rw [h1a]
    have htr2 : tool_results_of
        [⟨nameTextTool, some (textErrorDict e content_type)⟩]
        = textErrorDict e content_type := by
      have hstep : tool_results_of
          [⟨nameTextTool, some (textErrorDict e content_type)⟩]
          = dupdate [] (textErrorDict e content_type) := by
        simp [tool_results_of, isRecognizedTool]
      rw [hstep, dupdate_nil_textError]
    have hpdm : process_document_metadata content_type fs fn file_url
        (Except.ok ⟨c, [⟨nameTextTool, some (textErrorDict e content_type)⟩]⟩)
        = dupdate (decision_from_response c) (textErrorDict e content_type) := by
      show (if (tool_results_of
            [⟨nameTextTool, some (textErrorDict e content_type)⟩]).isEmpty
          then decision_from_response c
          else dupdate (decision_from_response c)
            (tool_results_of
              [⟨nameTextTool, some (textErrorDict e content_type)⟩])) = _
      rw [htr2]
      rfl
    have hnod : ((textErrorDict e content_type).map Prod.fst).Nodup := by
      show ([kSuccess, kError, kContentType, kProcessingMethod]
        : List String).Nodup
      decide
    have hmergedS : dlookup (dupdate (decision_from_response c)
          (textErrorDict e content_type)) kSuccess = some (JVal.jbool false) :=
      dlookup_dupdate_mem _ hnod _ _ _ (by simp [textErrorDict])
    have hmergedE : dlookup (dupdate (decision_from_response c)
          (textErrorDict e content_type)) kError = some (JVal.jstr e) :=
      dlookup_dupdate_mem _ hnod _ _ _ (by simp [textErrorDict])
    have htrig : triggerKeys.any (fun k => dcontains
        (dupdate (decision_from_response c) (textErrorDict e content_type)) k)
        = true := by
      apply List.any_eq_true.mpr
      refine ⟨kSuccess, by decide, ?_⟩
      rw [dcontains_dupdate]
      simp [dcontains_textError_success]
    refine ⟨dfilterKeys resultKeys (dupdate (decision_from_response c)
        (textErrorDict e content_type)), ?_, ?_, ?_⟩
    · show (upload_split (process_document_metadata content_type fs fn file_url
          (Except.ok ⟨c, [⟨nameTextTool,
            some (textErrorDict e content_type)⟩]⟩))).2 = _
      rw [hpdm]
      unfold upload_split
      rw [if_pos htrig]
    · rw [dlookup_dfilterKeys_mem resultKeys _ kSuccess (by decide), hmergedS]
    · rw [dlookup_dfilterKeys_mem resultKeys _ kError (by decide), hmergedE]

/-- Claim C7 witness: a failed fetch of a PDF yields the explicit failure result
and a persisted processing_results fragment with success=false. -/
theorem text_extraction_failure_flows_to_results_witness :
    (⟨Except.error ("connection refused"), "", Except.ok [], Except.ok [],
        fun _ => Except.ok ("")⟩ : TextToolEnv).fetch
      = Except.error ("connection refused") ∧
    ((text_parsing_tool ("http://u") ctPdf
        ⟨Except.error ("connection refused"), "", Except.ok [], Except.ok [],
          fun _ => Except.ok ("")⟩).1
      = textErrorDict ("connection refused") ctPdf ∧
    (text_parsing_tool ("http://u") ctPdf
        ⟨Except.error ("connection refused"), "", Except.ok [], Except.ok [],
          fun _ => Except.ok ("")⟩).2 = [] ∧
    dlookup (text_parsing_tool ("http://u") ctPdf
        ⟨Except.error ("connection refused"), "", Except.ok [], Except.ok [],
          fun _ => Except.ok ("")⟩).1 kSuccess = some (JVal.jbool false) ∧
    dlookup (text_parsing_tool ("http://u") ctPdf
        ⟨Except.error ("connection refused"), "", Except.ok [], Except.ok [],
          fun _ => Except.ok ("")⟩).1 kError
      = some (JVal.jstr ("connection refused")) ∧
    dcontains (text_parsing_tool ("http://u") ctPdf
        ⟨Except.error ("connection refused"), "", Except.ok [], Except.ok [],
          fun _ => Except.ok ("")⟩).1 kExtractedText = false ∧
    ∀ (c : String) (fs : Int) (fn : String),
      ∃ res,
        (upload_document_fragments ctPdf fs fn ("http://u")
          (Except.ok ⟨c, [⟨nameTextTool,
            some (text_parsing_tool ("http://u") ctPdf
              ⟨Except.error ("connection refused"), "", Except.ok [],
                Except.ok [], fun _ => Except.ok ("")⟩).1⟩]⟩)).2
          = some res ∧
        dlookup res kSuccess = some (JVal.jbool false) ∧
        dlookup res kError = some (JVal.jstr ("connection refused"))) :=
  ⟨rfl,
    text_extraction_failure_flows_to_results ("http://u") ctPdf
      ("connection refused")
      ⟨Except.error ("connection refused"), "", Except.ok [], Except.ok [],
        fun _ => Except.ok ("")⟩
      (Or.inl rfl)⟩
